import Mathlib

set_option maxHeartbeats 1000000

namespace Strata

/-!
Shallow embedding of the strata layer-composition pipeline and renderer
(repository dirtybirdnj/strata). The external 2D geometry engine
(shapely/GEOS) is modelled on a discrete plane: a geometry covers a finite
set of unit cells, so overlay operations (difference, intersection, union)
get exact set semantics. Polygons keep their ring structure (each ring is
represented by the region it encloses); engine primitives the code only
forwards to (simplify, buffer, reprojection) are abstract parameters.
-/

/-- Unit cell of the discrete planar model of the geometry engine. -/
abbrev Cell := Int × Int

/-- Shapely geometry as handled by the code under src: polygons and
multi-polygons keep their ring structure, overlay results are generic
regions (the engine recomputes rings; the model does not track them
through overlays). -/
inductive SGeom where
  | polygon (ext : List Cell) (holes : List (List Cell))
  | multiPolygon (polys : List (List Cell × List (List Cell)))
  | generic (cells : List Cell)
deriving DecidableEq, Repr

/-- Region covered by a polygon given as exterior ring and interior
rings, each ring represented by the region it encloses. -/
def ringRegion (ext : List Cell) (holes : List (List Cell)) : List Cell :=
  ext.filter (fun c => !(holes.any (fun h => decide (c ∈ h))))

/-- Cells covered by a geometry. -/
def SGeom.cells : SGeom → List Cell
  | .polygon e hs => ringRegion e hs
  | .multiPolygon ps => ps.flatMap (fun p => ringRegion p.1 p.2)
  | .generic cs => cs

/-- shapely `geometry.is_empty`: a polygon is empty iff it has no
exterior ring, a multi-polygon iff all parts are empty. -/
def SGeom.isEmpty : SGeom → Bool
  | .polygon e _ => e.isEmpty
  | .multiPolygon ps => ps.all (fun p => p.1.isEmpty)
  | .generic cs => cs.isEmpty

/-- shapely difference on the covered-region semantics. -/
def SGeom.difference (g h : SGeom) : SGeom :=
  .generic (g.cells.filter (fun c => !(decide (c ∈ h.cells))))

/-- shapely intersection on the covered-region semantics. -/
def SGeom.intersection (g h : SGeom) : SGeom :=
  .generic (g.cells.filter (fun c => decide (c ∈ h.cells)))

/-- shapely intersects predicate. -/
def SGeom.intersects (g h : SGeom) : Bool :=
  g.cells.any (fun c => decide (c ∈ h.cells))

/-- Attribute value of a feature (pandas scalar). -/
inductive AVal where
  | str (s : String)
  | num (q : Rat)
deriving DecidableEq, Repr

/-- One row of a GeoDataFrame: a geometry plus named attributes. -/
structure Feature where
  geometry : SGeom
  attrs : List (String × AVal)
deriving DecidableEq, Repr

/-- geopandas GeoDataFrame: ordered rows sharing one CRS identifier. -/
structure GeoDataFrame where
  crs : String
  features : List Feature
deriving DecidableEq, Repr

/-- GeoSeries.union_all: the cells of the union of every geometry in the
frame. -/
def GeoDataFrame.unionAllCells (g : GeoDataFrame) : List Cell :=
  g.features.flatMap (fun f => f.geometry.cells)

/-- GeoDataFrame.to_crs: reprojection is delegated to the external
engine, modelled by an arbitrary per-cell transformation
`tr fromCrs toCrs cell`. -/
def GeoDataFrame.to_crs (g : GeoDataFrame) (tr : String → String → Cell → Cell)
    (target : String) : GeoDataFrame :=
  { crs := target
    features := g.features.map (fun f =>
      { f with geometry := .generic (f.geometry.cells.map (tr g.crs target)) }) }

/-- Bounding box (minx, miny, maxx, maxy). -/
abbrev Bounds4 := Rat × Rat × Rat × Rat

/-- Membership of a cell in the shapely `box(*bounds)` rectangle. -/
def boxContains (b : Bounds4) (c : Cell) : Bool :=
  decide ((b.1 ≤ (c.1 : Rat)) ∧ ((c.1 : Rat) ≤ b.2.2.1) ∧
          (b.2.1 ≤ (c.2 : Rat)) ∧ ((c.2 : Rat) ≤ b.2.2.2))

/-- geopandas GeoDataFrame.clip with a mask given as a cell predicate:
every row's geometry is intersected with the mask, and rows whose
intersection is empty are dropped. -/
def GeoDataFrame.clipMask (g : GeoDataFrame) (mask : Cell → Bool) : GeoDataFrame :=
  { crs := g.crs
    features :=
      (g.features.map (fun f =>
        { f with geometry := SGeom.generic (f.geometry.cells.filter mask) })).filter
        (fun f => !(f.geometry.isEmpty)) }

/-- numpy total_bounds (minx, miny, maxx, maxy) over every geometry of
the frame; `none` for a frame without coordinates (numpy yields NaNs
there, on which the callers misbehave). -/
def GeoDataFrame.total_bounds (g : GeoDataFrame) : Option Bounds4 :=
  match g.unionAllCells with
  | [] => Option.none
  | c :: cs =>
    some (cs.foldl (fun b d =>
      (min b.1 (d.1 : Rat), min b.2.1 (d.2 : Rat),
       max b.2.2.1 (d.1 : Rat), max b.2.2.2 (d.2 : Rat)))
      ((c.1 : Rat), (c.2 : Rat), (c.1 : Rat), (c.2 : Rat)))

/-- src/strata/humboldt/geometry.py subtract: reproject the target to the
base CRS when they differ, union the target geometries, difference every
base feature against that union, and drop rows whose result is empty. -/
def subtract (tr : String → String → Cell → Cell)
    (gdf subtract_gdf : GeoDataFrame) : GeoDataFrame :=
  let sub := if gdf.crs = subtract_gdf.crs then subtract_gdf
             else subtract_gdf.to_crs tr gdf.crs
  let subtract_union : SGeom := .generic sub.unionAllCells
  { crs := gdf.crs
    features :=
      (gdf.features.map (fun f =>
        { f with geometry := f.geometry.difference subtract_union })).filter
        (fun f => !(f.geometry.isEmpty)) }

/-- src/strata/humboldt/geometry.py clip: clip to a bounding box. -/
def clip (gdf : GeoDataFrame) (bounds : Bounds4) : GeoDataFrame :=
  gdf.clipMask (boxContains bounds)

/-- src/strata/humboldt/geometry.py clip_to_gdf: clip to another frame's
unioned geometry, reprojecting the clip frame to the base CRS first. -/
def clip_to_gdf (tr : String → String → Cell → Cell)
    (gdf clip_gdf : GeoDataFrame) : GeoDataFrame :=
  let cg := if gdf.crs = clip_gdf.crs then clip_gdf
            else clip_gdf.to_crs tr gdf.crs
  gdf.clipMask (fun c => decide (c ∈ cg.unionAllCells))

/-- src/strata/humboldt/geometry.py merge: one row holding the union of
every geometry, attributes discarded, CRS kept. -/
def merge (gdf : GeoDataFrame) : GeoDataFrame :=
  { crs := gdf.crs
    features := [{ geometry := .generic gdf.unionAllCells, attrs := [] }] }

/-- src/strata/humboldt/geometry.py simplify: per-geometry engine
simplification (`simpPrim tolerance preserve_topology`); no filtering of
the results. -/
def simplify (simpPrim : Rat → Bool → SGeom → SGeom) (gdf : GeoDataFrame)
    (tolerance : Rat) (preserve_topology : Bool) : GeoDataFrame :=
  { crs := gdf.crs
    features := gdf.features.map (fun f =>
      { f with geometry := simpPrim tolerance preserve_topology f.geometry }) }

/-- src/strata/humboldt/geometry.py buffer: per-geometry engine buffer,
then rows whose geometry became empty are dropped. -/
def buffer (bufPrim : Rat → SGeom → SGeom) (gdf : GeoDataFrame)
    (distance : Rat) : GeoDataFrame :=
  { crs := gdf.crs
    features :=
      (gdf.features.map (fun f => { f with geometry := bufPrim distance f.geometry })).filter
        (fun f => !(f.geometry.isEmpty)) }

/-- shapely Polygon(ring).area for a ring represented by the region it
encloses. -/
def ringArea (h : List Cell) : Rat := (h.length : Rat)

/-- Polygon parts of a geometry (isinstance dispatch in
extract_islands). -/
def SGeom.polygonList : SGeom → List (List Cell × List (List Cell))
  | .polygon e hs => [(e, hs)]
  | .multiPolygon ps => ps
  | .generic _ => []

/-- Island features produced from one polygon part by extract_islands:
each interior ring becomes its own polygon feature when its area reaches
min_area, inheriting the parent attributes plus provenance fields. -/
def islandsOfPoly (attrs : List (String × AVal)) (idx : Nat) (min_area : Rat)
    (p : List Cell × List (List Cell)) : List Feature :=
  p.2.filterMap (fun interior =>
    if ringArea interior ≥ min_area then
      some { geometry := .polygon interior []
             attrs := attrs ++ [("_source_idx", AVal.num idx),
                                ("_island_area", AVal.num (ringArea interior))] }
    else Option.none)

/-- src/strata/humboldt/geometry.py extract_islands. -/
def extract_islands (gdf : GeoDataFrame) (min_area : Rat) : GeoDataFrame :=
  { crs := gdf.crs
    features :=
      gdf.features.enum.flatMap (fun fi =>
        if fi.2.geometry.isEmpty then []
        else fi.2.geometry.polygonList.flatMap (islandsOfPoly fi.2.attrs fi.1 min_area)) }

/-- Ring selection of remove_holes_from_geom on one polygon: with a
non-positive threshold all interior rings go; otherwise exactly the
interior rings whose area is strictly below min_hole_area are kept. -/
def removeHolesPoly (min_hole_area : Rat) (e : List Cell)
    (hs : List (List Cell)) : List Cell × List (List Cell) :=
  if min_hole_area ≤ 0 then (e, [])
  else (e, hs.filter (fun h => decide (ringArea h < min_hole_area)))

/-- Inner remove_holes_from_geom of src/strata/humboldt/geometry.py
remove_holes: empty geometries are returned unchanged, polygons are
rebuilt from the exterior with the kept interior rings, multi-polygons
process each part, other geometry is untouched. -/
def remove_holes_from_geom (min_hole_area : Rat) (g : SGeom) : SGeom :=
  if g.isEmpty then g
  else
    match g with
    | .polygon e hs =>
        let p := removeHolesPoly min_hole_area e hs
        .polygon p.1 p.2
    | .multiPolygon ps =>
        .multiPolygon (ps.map (fun q =>
          if (SGeom.polygon q.1 q.2).isEmpty then q
          else removeHolesPoly min_hole_area q.1 q.2))
    | g => g

/-- src/strata/humboldt/geometry.py remove_holes: map the per-geometry
transformation over the rows; no filtering, CRS kept. -/
def remove_holes (gdf : GeoDataFrame) (min_hole_area : Rat) : GeoDataFrame :=
  { crs := gdf.crs
    features := gdf.features.map (fun f =>
      { f with geometry := remove_holes_from_geom min_hole_area f.geometry }) }

/-- Modelled from the spec: `dissolve_by` is imported by
src/strata/humboldt/__init__.py but its definition is not among the
source files. Spec section 4.1 dissolve: group features by the value of a
named attribute and union the geometry within each group into one feature
per distinct value. -/
def dissolve_by (gdf : GeoDataFrame) (column : String) : GeoDataFrame :=
  let vals := (gdf.features.filterMap (fun f => f.attrs.lookup column)).dedup
  { crs := gdf.crs
    features := vals.map (fun v =>
      { geometry := .generic
          ((gdf.features.filter (fun f => decide (f.attrs.lookup column = some v))).flatMap
            (fun f => f.geometry.cells))
        attrs := [(column, v)] }) }

/-- Modelled from the spec: `clean_geometry` is imported by
src/strata/humboldt/__init__.py but its definition is not among the
source files. Spec section 4.1 clean: a zero-or-small positive buffer
followed by an equal negative buffer. -/
def clean_geometry (bufPrim : Rat → SGeom → SGeom) (gdf : GeoDataFrame)
    (buffer_distance : Rat) : GeoDataFrame :=
  buffer bufPrim (buffer bufPrim gdf buffer_distance) (-buffer_distance)

/-- Value of the "target" key of an operation dict: absent, a single
source name, or a list of names. -/
inductive TargetVal where
  | none
  | str (s : String)
  | list (l : List String)
deriving DecidableEq, Repr

/-- Normalization `targets = [targets] if isinstance(targets, str) else
targets` with the `op.get("target", [])` default. A dict whose "target"
key holds Python None would raise on iteration; the model treats it as
the absent-key default. -/
def TargetVal.asList : TargetVal → List String
  | .none => []
  | .str s => [s]
  | .list l => l

/-- Python truthiness of a target value (None, "" and [] are falsy). -/
def TargetVal.isTruthy : TargetVal → Bool
  | .none => false
  | .str s => !(s.isEmpty)
  | .list l => !(l.isEmpty)

/-- Operation dict consumed by humboldt process_layer, with the keys the
code reads via `op.get`. `Option.none` stands for an absent key (the
pipeline's model_dump also emits explicit None values, treated alike). -/
structure OpDict where
  type : String
  target : TargetVal := .none
  tolerance : Option Rat := Option.none
  preserve_topology : Option Bool := Option.none
  min_area : Option Rat := Option.none
  min_hole_area : Option Rat := Option.none
  distance : Option Rat := Option.none
  byAttr : Option String := Option.none
  buffer_distance : Option Rat := Option.none
deriving DecidableEq, Repr

/-- External engine primitives the code forwards to without inspecting:
simplification, buffering and per-cell reprojection. -/
structure EnginePrims where
  simpPrim : Rat → Bool → SGeom → SGeom
  bufPrim : Rat → SGeom → SGeom
  reproj : String → String → Cell → Cell

/-- One iteration of the process_layer loop of
src/strata/humboldt/__init__.py: dispatch on the operation's type string;
an unrecognized type falls through every branch and leaves the collection
untouched. The clip branch with a list-valued target (a Python TypeError)
is modelled as leaving the collection untouched. -/
def applyOp (prims : EnginePrims) (sources : List (String × GeoDataFrame))
    (result : GeoDataFrame) (op : OpDict) : GeoDataFrame :=
  if op.type = "subtract" then
    op.target.asList.foldl (fun res tname =>
      match sources.lookup tname with
      | some tg => subtract prims.reproj res tg
      | Option.none => res) result
  else if op.type = "clip" then
    match op.target with
    | .str s =>
      if s = "bounds" then result
      else
        match sources.lookup s with
        | some tg =>
          match tg.total_bounds with
          | some b => clip result b
          | Option.none => result
        | Option.none => result
    | _ => result
  else if op.type = "simplify" then
    simplify prims.simpPrim result (op.tolerance.getD (1/10000)) (op.preserve_topology.getD true)
  else if op.type = "merge" then merge result
  else if op.type = "buffer" then buffer prims.bufPrim result (op.distance.getD 0)
  else if op.type = "exclude" then
    op.target.asList.foldl (fun res tname =>
      match sources.lookup tname with
      | some tg =>
        let target_union : SGeom := .generic tg.unionAllCells
        { crs := res.crs
          features := res.features.filter (fun f => !(f.geometry.intersects target_union)) }
      | Option.none => res) result
  else if op.type = "extract_islands" then extract_islands result (op.min_area.getD 0)
  else if op.type = "remove_holes" then remove_holes result (op.min_hole_area.getD 0)
  else if op.type = "dissolve" then
    match op.byAttr with
    | some column => if column = "" then result else dissolve_by result column
    | Option.none => result
  else if op.type = "clean" then clean_geometry prims.bufPrim result (op.buffer_distance.getD 0)
  else result

/-- src/strata/humboldt/__init__.py process_layer: apply the operation
dicts in declaration order, each consuming the previous output
(`result = gdf.copy()` is a value copy). -/
def process_layer (prims : EnginePrims) (gdf : GeoDataFrame)
    (operations : List OpDict) (sources : List (String × GeoDataFrame)) : GeoDataFrame :=
  operations.foldl (applyOp prims sources) gdf

/-- src/strata/maury/recipe.py SourceConfig (fields beyond the name→uri
mapping play no role in the embedded behavior). -/
structure SourceConfig where
  uri : String
deriving DecidableEq, Repr

/-- src/strata/maury/recipe.py OperationConfig. -/
structure OperationConfig where
  type : String
  target : TargetVal := .none
  tolerance : Option Rat := Option.none
  preserve_topology : Bool := true
  min_area_km2 : Option Rat := Option.none
  output : Option String := Option.none
  distance : Option Rat := Option.none
deriving DecidableEq, Repr

/-- Operation dict produced by `op.model_dump()` in
Pipeline.process_layers: only the OperationConfig keys exist, so the
min_area, min_hole_area, by and buffer_distance lookups in process_layer
always fall back to their defaults. -/
def OperationConfig.toDict (op : OperationConfig) : OpDict :=
  { type := op.type
    target := op.target
    tolerance := op.tolerance
    preserve_topology := some op.preserve_topology
    distance := op.distance }

/-- src/strata/maury/recipe.py StyleConfig. -/
structure StyleConfig where
  stroke : String := "#333333"
  stroke_width : Rat := 1
  fill : Option String := Option.none
  opacity : Rat := 1
  dash_array : Option (List Rat) := Option.none
deriving DecidableEq, Repr

/-- A layer's source reference: one name or several. -/
inductive SourceRef where
  | str (s : String)
  | list (l : List String)
deriving DecidableEq, Repr

/-- Normalization `[layer.source] if isinstance(layer.source, str) else
layer.source`. -/
def SourceRef.asList : SourceRef → List String
  | .str s => [s]
  | .list l => l

/-- src/strata/maury/recipe.py LayerConfig. The bounds and filter fields
are modelled from the spec: Pipeline.process_layers reads
layer_config.bounds and layer_config.filter, which the LayerConfig
pydantic model under src does not declare; spec section 4.2 step 3
specifies a layer-level bounding-box clip and layer-level attribute
filters. -/
structure LayerConfig where
  name : String
  source : SourceRef
  operations : List OperationConfig := []
  style : StyleConfig := {}
  order : Int
  bounds : Option (List Rat) := Option.none
  filter : Option (List (String × AVal)) := Option.none
deriving DecidableEq, Repr

/-- Recipe output bounds: the YAML value is a string or a list of
numbers. -/
inductive BoundsCfg where
  | str (s : String)
  | floats (l : List Rat)
deriving DecidableEq, Repr

/-- src/strata/maury/recipe.py OutputConfig (format configs are consumed
only by export, outside the embedded behavior). -/
structure OutputConfig where
  bounds : BoundsCfg := .str "auto"
  projection : String := "epsg:4326"
deriving DecidableEq, Repr

/-- src/strata/maury/recipe.py Recipe. -/
structure Recipe where
  name : String
  description : String := ""
  version : Int := 1
  sources : List (String × SourceConfig)
  layers : List LayerConfig
  output : OutputConfig := {}
deriving DecidableEq, Repr

/-- Keys of the recipe's sources map. -/
def sourceNames (r : Recipe) : List String := r.sources.map Prod.fst

/-- Error string for a layer source reference that is not a defined
source (recipe.py line 161). -/
def refErr (layerName src : String) : String :=
  "Layer \x27" ++ layerName ++ "\x27 references undefined source \x27" ++ src ++ "\x27"

/-- Error string for an operation target that is neither a defined source
nor "bounds" (recipe.py line 173). -/
def targetErr (layerName target : String) : String :=
  "Layer \x27" ++ layerName ++ "\x27 operation references undefined source \x27"
    ++ target ++ "\x27"

/-- src/strata/maury/recipe.py Recipe.validate_references: one error is
appended per undefined layer-source reference and per undefined truthy
operation target, in layer order. -/
def validate_references (r : Recipe) : List String :=
  r.layers.flatMap (fun layer =>
    (layer.source.asList.filter (fun src => !((sourceNames r).contains src))).map
      (refErr layer.name)
    ++ layer.operations.flatMap (fun op =>
        if op.target.isTruthy then
          (op.target.asList.filter (fun t =>
            !((sourceNames r).contains t) && !(t = "bounds" : Bool))).map
            (targetErr layer.name)
        else []))

/-- Number of undefined references a recipe holds (layer sources plus
truthy operation targets). -/
def offendingCount (r : Recipe) : Nat :=
  (r.layers.map (fun layer =>
    (layer.source.asList.filter (fun src => !((sourceNames r).contains src))).length
    + (layer.operations.map (fun op =>
        if op.target.isTruthy then
          (op.target.asList.filter (fun t =>
            !((sourceNames r).contains t) && !(t = "bounds" : Bool))).length
        else 0)).sum)).sum

/-- Source concatenation step of Pipeline.process_layers: a single source
is copied, several are reprojected to WGS84 (frames with a falsy CRS are
kept as-is) and concatenated in input order under the common CRS. -/
def concatSources (prims : EnginePrims) (gs : List GeoDataFrame) : GeoDataFrame :=
  match gs with
  | [g] => g
  | gs =>
    { crs := "EPSG:4326"
      features := (gs.map (fun g =>
        if g.crs ≠ "" ∧ g.crs ≠ "EPSG:4326" then g.to_crs prims.reproj "EPSG:4326"
        else g)).flatMap (fun g => g.features) }

/-- Layer-level bounds clip of Pipeline.process_layers: clip to the
4-number box and drop rows with empty geometry. -/
def layerBoundsClip (layer : LayerConfig) (g : GeoDataFrame) : GeoDataFrame :=
  match layer.bounds with
  | some l =>
    if l.length = 4 then
      let c := clip g (l.getD 0 0, l.getD 1 0, l.getD 2 0, l.getD 3 0)
      { c with features := c.features.filter (fun f => !(f.geometry.isEmpty)) }
    else g
  | Option.none => g

/-- Modelled from the spec: layer-level attribute filter application
(the layer filter field itself is absent from src, see LayerConfig);
spec section 6 filter grammar, restricted to exact attribute matches. -/
def applyAttrFilter (flt : List (String × AVal)) (g : GeoDataFrame) : GeoDataFrame :=
  { crs := g.crs
    features := g.features.filter (fun f =>
      flt.all (fun kv => decide (f.attrs.lookup kv.1 = some kv.2))) }

/-- Composition of one layer in Pipeline.process_layers: resolve the
source references (a layer whose references all fail to resolve is
skipped with a warning, `Option.none` here), concatenate, apply the
layer-level bounds clip and filter, then run the operation sequence. -/
def processOneLayer (prims : EnginePrims) (sources : List (String × GeoDataFrame))
    (layer : LayerConfig) : Option GeoDataFrame :=
  let source_gdfs := layer.source.asList.filterMap (fun n => sources.lookup n)
  if source_gdfs.isEmpty then Option.none
  else
    let gdf := concatSources prims source_gdfs
    let gdf := layerBoundsClip layer gdf
    let gdf := match layer.filter with
               | some flt => applyAttrFilter flt gdf
               | Option.none => gdf
    let ops := layer.operations.map OperationConfig.toDict
    some (if ops.isEmpty then gdf else process_layer prims gdf ops sources)

/-- src/strata/maury/pipeline.py Pipeline._clip_to_bounds: the final pass
clips every composed layer to the output bounds and drops empty
geometries, but only when the bounds are a 4-number list; "auto" and any
other string (including "source:<name>") leave every layer untouched. -/
def clipToBounds (bounds_config : BoundsCfg)
    (layers : List (String × GeoDataFrame)) : List (String × GeoDataFrame) :=
  if bounds_config = .str "auto" then layers
  else
    match bounds_config with
    | .floats l =>
      if l.length = 4 then
        layers.map (fun ng =>
          let clipped := clip ng.2 (l.getD 0 0, l.getD 1 0, l.getD 2 0, l.getD 3 0)
          (ng.1, { clipped with
                   features := clipped.features.filter (fun f => !(f.geometry.isEmpty)) }))
      else layers
    | _ => layers

/-- src/strata/maury/pipeline.py Pipeline.process_layers: layers sorted
by ascending order (stable), each composed against the loaded sources,
skipped when no source resolves, then the final _clip_to_bounds pass. -/
def process_layers (prims : EnginePrims) (r : Recipe)
    (sources : List (String × GeoDataFrame)) : List (String × GeoDataFrame) :=
  let sorted_layers := r.layers.mergeSort (fun a b => a.order ≤ b.order)
  let layersList := sorted_layers.foldl (fun acc layer =>
    match processOneLayer prims sources layer with
    | some g => acc ++ [(layer.name, g)]
    | Option.none => acc) []
  clipToBounds r.output.bounds layersList

/-- src/strata/maury/pipeline.py Pipeline._get_output_bounds: "auto"
unions the composed layers' extents, a 4-number list is returned as-is,
"source:<name>" copies a loaded source's extent. -/
def get_output_bounds (r : Recipe) (sources : List (String × GeoDataFrame))
    (layers : List (String × GeoDataFrame)) : Option Bounds4 :=
  match r.output.bounds with
  | .str s =>
    if s = "auto" then
      match layers.filterMap (fun ng =>
        if ng.2.features.isEmpty then Option.none else ng.2.total_bounds) with
      | [] => Option.none
      | b :: bs =>
        some (bs.foldl (fun acc d =>
          (min acc.1 d.1, min acc.2.1 d.2.1,
           max acc.2.2.1 d.2.2.1, max acc.2.2.2 d.2.2.2)) b)
    else if s.data.take 7 = "source:".data then
      match sources.lookup (String.mk (s.data.drop 7)) with
      | some g => g.total_bounds
      | Option.none => Option.none
    else Option.none
  | .floats l =>
    if l.length = 4 then some (l.getD 0 0, l.getD 1 0, l.getD 2 0, l.getD 3 0)
    else Option.none

/-- Outcome of the cli.py build command: an itemized validation failure,
or the composed layer set handed to export. -/
inductive BuildOutcome where
  | validationFailure (errors : List String)
  | built (layers : List (String × GeoDataFrame))
deriving DecidableEq, Repr

/-- src/strata/cli.py build combined with Pipeline.build: the reference
validation errors abort (SystemExit) before the Pipeline is constructed;
otherwise sources are fetched and loaded (the thoreau collaborator and
geopandas read are summarized by `load`) and the layers are processed.
Export is not part of the outcome. -/
def cliBuild (prims : EnginePrims) (r : Recipe) (load : String → GeoDataFrame) :
    BuildOutcome :=
  let errors := validate_references r
  if errors.isEmpty then
    .built (process_layers prims r (r.sources.map (fun ns => (ns.1, load ns.1))))
  else .validationFailure errors

/-- Hex digit value, as accepted by Python int(_, 16). -/
def hexVal (c : Char) : Option Nat :=
  if '0' ≤ c ∧ c ≤ '9' then some (c.toNat - '0'.toNat)
  else if 'a' ≤ c ∧ c ≤ 'f' then some (c.toNat - 'a'.toNat + 10)
  else if 'A' ≤ c ∧ c ≤ 'F' then some (c.toNat - 'A'.toNat + 10)
  else Option.none

/-- Python int(s, 16) on a character slice: fails on an empty slice or a
non-hex character. -/
def parseHexNat (cs : List Char) : Option Nat :=
  match cs with
  | [] => Option.none
  | _ => cs.foldl (fun acc c => do pure (16 * (← acc) + (← hexVal c))) (some 0)

/-- Python int() truncation toward zero on a rational. -/
def pyTrunc (x : Rat) : Int := if 0 ≤ x then ⌊x⌋ else -⌊-x⌋

/-- CPython colorsys.rgb_to_hsv, exactly over the rationals. -/
def rgb_to_hsv (r g b : Rat) : Rat × Rat × Rat :=
  let maxc := max r (max g b)
  let minc := min r (min g b)
  let rangec := maxc - minc
  let v := maxc
  if minc = maxc then (0, 0, v)
  else
    let s := rangec / maxc
    let rc := (maxc - r) / rangec
    let gc := (maxc - g) / rangec
    let bc := (maxc - b) / rangec
    let h := if r = maxc then bc - gc
             else if g = maxc then 2 + rc - bc
             else 4 + gc - rc
    (Int.fract (h / 6), s, v)

/-- CPython colorsys.hsv_to_rgb, exactly over the rationals. -/
def hsv_to_rgb (h s v : Rat) : Rat × Rat × Rat :=
  if s = 0 then (v, v, v)
  else
    let i := pyTrunc (h * 6)
    let f := h * 6 - (i : Rat)
    let p := v * (1 - s)
    let q := v * (1 - s * f)
    let t := v * (1 - s * (1 - f))
    let i2 := i % 6
    if i2 = 0 then (v, t, p)
    else if i2 = 1 then (q, v, p)
    else if i2 = 2 then (p, v, t)
    else if i2 = 3 then (p, q, v)
    else if i2 = 4 then (t, p, q)
    else (q, p, t)

/-- Lowercase hex digit character. -/
def hexDigitChar (n : Nat) : Char :=
  if n < 10 then Char.ofNat ('0'.toNat + n) else Char.ofNat ('a'.toNat + (n - 10))

/-- Python format spec 02x on a nonnegative int. -/
def toHex02 (n : Nat) : String :=
  if n < 16 then String.mk ['0', hexDigitChar n]
  else String.mk (Nat.toDigits 16 n)

/-- Offset of src/strata/kelley/svg.py vary_color:
`((index * 7919) % 100) / 100.0`. -/
def colorOffset (index : Nat) : Rat := (((index * 7919) % 100 : Nat) : Rat) / 100

/-- Saturation adjustment of vary_color:
`(offset - 0.5) * variation * 0.5`. -/
def sAdjust (index : Nat) (variation : Rat) : Rat :=
  (colorOffset index - 1/2) * variation * (1/2)

/-- Value adjustment of vary_color: `(offset - 0.5) * variation`. -/
def vAdjust (index : Nat) (variation : Rat) : Rat :=
  (colorOffset index - 1/2) * variation

/-- src/strata/kelley/svg.py vary_color: strip leading '#', parse the
three hex bytes (Python raises on a malformed color, `Option.none`
here), convert to HSV, perturb saturation and value by the
index-derived offset, clamp, convert back and format as hex. The float
arithmetic of the code is modelled exactly over the rationals. -/
def vary_color (base_hex : String) (index : Nat) (variation : Rat) : Option String := do
  let cs := base_hex.data.dropWhile (fun c => c = '#')
  let r ← parseHexNat (cs.take 2)
  let g ← parseHexNat ((cs.drop 2).take 2)
  let b ← parseHexNat ((cs.drop 4).take 2)
  let hsv := rgb_to_hsv ((r : Rat) / 255) ((g : Rat) / 255) ((b : Rat) / 255)
  let new_s := max (1/10) (min 1 (hsv.2.1 + sAdjust index variation))
  let new_v := max (3/10) (min 1 (hsv.2.2 + vAdjust index variation))
  let rgb := hsv_to_rgb hsv.1 new_s new_v
  pure ("#" ++ toHex02 (pyTrunc (rgb.1 * 255)).toNat
            ++ toHex02 (pyTrunc (rgb.2.1 * 255)).toNat
            ++ toHex02 (pyTrunc (rgb.2.2 * 255)).toNat)

/-- Clamp to a closed interval, as the spec words the saturation and
value clamping. -/
def clampQ (lo hi x : Rat) : Rat := max lo (min hi x)

/-- Modelled from the spec (refinement reference for vary_color): convert
the base color to HSV, compute offset = ((index * 7919) mod 100) / 100,
adjust saturation by (offset - 0.5) * variation / 2 and value by
(offset - 0.5) * variation, clamp saturation to [0.1, 1.0] and value to
[0.3, 1.0], convert back to hex. -/
def spec_vary_color (base_hex : String) (index : Nat) (variation : Rat) :
    Option String := do
  let cs := base_hex.data.dropWhile (fun c => c = '#')
  let r ← parseHexNat (cs.take 2)
  let g ← parseHexNat ((cs.drop 2).take 2)
  let b ← parseHexNat ((cs.drop 4).take 2)
  let hsv := rgb_to_hsv ((r : Rat) / 255) ((g : Rat) / 255) ((b : Rat) / 255)
  let offset : Rat := (((index * 7919) % 100 : Nat) : Rat) / 100
  let new_s := clampQ (1/10) 1 (hsv.2.1 + (offset - 1/2) * variation / 2)
  let new_v := clampQ (3/10) 1 (hsv.2.2 + (offset - 1/2) * variation)
  let rgb := hsv_to_rgb hsv.1 new_s new_v
  pure ("#" ++ toHex02 (pyTrunc (rgb.1 * 255)).toNat
            ++ toHex02 (pyTrunc (rgb.2.1 * 255)).toNat
            ++ toHex02 (pyTrunc (rgb.2.2 * 255)).toNat)

/-- src/strata/kelley/svg.py SVGExporter page state after __init__. -/
structure SVGExporter where
  width : ℝ
  height : ℝ
  units : String
  margin : ℝ
  dpi : ℝ
  width_px : ℝ
  height_px : ℝ
  margin_px : ℝ

/-- SVGExporter.__init__: record the page size and convert it to pixels
according to the units. -/
noncomputable def SVGExporter.init (width height : ℝ) (units : String)
    (margin dpi : ℝ) : SVGExporter :=
  if units = "in" then
    ⟨width, height, units, margin, dpi, width * dpi, height * dpi, margin * dpi⟩
  else if units = "mm" then
    ⟨width, height, units, margin, dpi,
      width * dpi / 25.4, height * dpi / 25.4, margin * dpi / 25.4⟩
  else ⟨width, height, units, margin, dpi, width, height, margin⟩

/-- Latitude correction factor of _calculate_transform:
`cos(radians((miny + maxy) / 2))`. -/
noncomputable def lat_correction_of (miny maxy : ℝ) : ℝ :=
  Real.cos (((miny + maxy) / 2) * Real.pi / 180)

open scoped Classical in
/-- src/strata/kelley/svg.py SVGExporter._calculate_transform: scale the
effective geographic size (width corrected by the latitude factor) into
the drawable area, take the limiting axis, reapply the correction to the
x-scale only, and center. Returns (scale_x, scale_y, offset_x, offset_y).
Real-number arithmetic stands for the float arithmetic of the code. -/
noncomputable def calculate_transform (e : SVGExporter) (bounds : ℝ × ℝ × ℝ × ℝ) :
    ℝ × ℝ × ℝ × ℝ :=
  let minx := bounds.1
  let miny := bounds.2.1
  let maxx := bounds.2.2.1
  let maxy := bounds.2.2.2
  let geo_width := maxx - minx
  let geo_height := maxy - miny
  let lat_correction := lat_correction_of miny maxy
  let effective_geo_width := geo_width * lat_correction
  let effective_geo_height := geo_height
  let drawable_width := e.width_px - 2 * e.margin_px
  let drawable_height := e.height_px - 2 * e.margin_px
  let scale_x_candidate :=
    if effective_geo_width > 0 then drawable_width / effective_geo_width else 1
  let scale_y_candidate :=
    if effective_geo_height > 0 then drawable_height / effective_geo_height else 1
  let base_scale := min scale_x_candidate scale_y_candidate
  let scale_x := base_scale * lat_correction
  let scale_y := base_scale
  let scaled_width := geo_width * scale_x
  let scaled_height := geo_height * scale_y
  let offset_x := e.margin_px + (drawable_width - scaled_width) / 2 - minx * scale_x
  let offset_y := e.margin_px + (drawable_height - scaled_height) / 2 - miny * scale_y
  (scale_x, scale_y, offset_x, offset_y)

/-- The recognized operation type strings of process_layer. -/
def knownOpTypes : List String :=
  ["subtract", "clip", "simplify", "merge", "buffer", "exclude",
   "extract_islands", "remove_holes", "dissolve", "clean"]

/-- Identity engine primitives, used for concrete evaluations. -/
def idPrims : EnginePrims :=
  { simpPrim := fun _ _ g => g, bufPrim := fun _ g => g, reproj := fun _ _ c => c }

lemma filter_self_idem {α : Type} (p : α → Bool) (l : List α) :
    (l.filter p).filter p = l.filter p := by
  induction l with
  | nil => rfl
  | cons a l ih =>
    by_cases h : p a
    · simp [List.filter_cons, h, ih]
    · simp [List.filter_cons, h, ih]

lemma map_id_of_mem {α : Type} {l : List α} {f : α → α} (h : ∀ x ∈ l, f x = x) :
    l.map f = l := by
  induction l with
  | nil => rfl
  | cons a l ih =>
    simp only [List.map_cons]
    rw [h a (List.mem_cons_self a l), ih (fun x hx => h x (List.mem_cons_of_mem a hx))]

lemma difference_idem (g U : SGeom) :
    (g.difference U).difference U = g.difference U := by
  simp [SGeom.difference, SGeom.cells, filter_self_idem]

/-- C7: subtracting the same target twice is a no-op — the second
subtract maps each already-differenced geometry to itself and its
empty-row filter removes nothing, so the feature set (geometries and
attributes alike) is unchanged. -/
theorem c7_subtract_idempotent (tr : String → String → Cell → Cell)
    (A B : GeoDataFrame) :
    subtract tr (subtract tr A B) B = subtract tr A B := by
  have hcrs : (subtract tr A B).crs = A.crs := rfl
  by_cases hc : A.crs = B.crs
  · simp only [subtract, hcrs, hc, if_pos]
    congr 1
    set U : SGeom := .generic B.unionAllCells with hU
    set d : Feature → Feature :=
      fun f => { f with geometry := f.geometry.difference U } with hd
    set p : Feature → Bool := fun f => !(f.geometry.isEmpty) with hp
    have hdd : ∀ f, d (d f) = d f := by
      intro f
      simp [hd, difference_idem]
    have hmap : ((A.features.map d).filter p).map d = (A.features.map d).filter p := by
      apply map_id_of_mem
      intro x hx
      obtain ⟨a, _, rfl⟩ := List.mem_map.mp (List.mem_of_mem_filter hx)
      exact hdd a
    rw [hmap, filter_self_idem]
  · simp only [subtract, hcrs, hc, if_neg, if_false]
    congr 1
    set U : SGeom := .generic (B.to_crs tr A.crs).unionAllCells with hU
    set d : Feature → Feature :=
      fun f => { f with geometry := f.geometry.difference U } with hd
    set p : Feature → Bool := fun f => !(f.geometry.isEmpty) with hp
    have hdd : ∀ f, d (d f) = d f := by
      intro f
      simp [hd, difference_idem]
    have hmap : ((A.features.map d).filter p).map d = (A.features.map d).filter p := by
      apply map_id_of_mem
      intro x hx
      obtain ⟨a, _, rfl⟩ := List.mem_map.mp (List.mem_of_mem_filter hx)
      exact hdd a
    rw [hmap, filter_self_idem]

/-- C9: an operation dict whose type string is none of the recognized
operation names falls through every branch of the process_layer dispatch,
raising nothing and leaving the collection unchanged. -/
theorem c9_unknown_op_ignored (prims : EnginePrims)
    (sources : List (String × GeoDataFrame)) (gdf : GeoDataFrame)
    (ops : List OpDict) (h : ∀ op ∈ ops, op.type ∉ knownOpTypes) :
    process_layer prims gdf ops sources = gdf := by
  induction ops generalizing gdf with
  | nil => rfl
  | cons op ops ih =>
    have h0 := h op (List.mem_cons_self op ops)
    simp only [knownOpTypes, List.mem_cons, List.not_mem_nil, or_false] at h0
    push_neg at h0
    obtain ⟨n1, n2, n3, n4, n5, n6, n7, n8, n9, n10⟩ := h0
    have happ : applyOp prims sources gdf op = gdf := by
      simp [applyOp, n1, n2, n3, n4, n5, n6, n7, n8, n9, n10]
    have hstep : process_layer prims gdf (op :: ops) sources
        = process_layer prims (applyOp prims sources gdf op) ops sources := rfl
    rw [hstep, happ]
    exact ih gdf (fun o ho => h o (List.mem_cons_of_mem op ho))

/-- C9 witness: a concrete unknown operation type is silently ignored. -/
theorem c9_witness :
    process_layer idPrims { crs := "E", features := [] }
      [{ type := "frobnicate" }] [] = { crs := "E", features := [] } :=
  c9_unknown_op_ignored idPrims [] { crs := "E", features := [] }
    [{ type := "frobnicate" }] (by decide)

/-- C10: every embedded geometry operation keeps the base collection's
CRS, and when base and target CRS differ, subtract and clip_to_gdf
reproject the target to the base CRS (reprojecting the target up front
gives the same result), never the base. -/
theorem c10_crs_preserved (tr : String → String → Cell → Cell)
    (A B : GeoDataFrame) (m : Rat) :
    (subtract tr A B).crs = A.crs ∧
    (clip_to_gdf tr A B).crs = A.crs ∧
    (merge A).crs = A.crs ∧
    (extract_islands A m).crs = A.crs ∧
    (A.crs ≠ B.crs →
      subtract tr A B = subtract tr A (B.to_crs tr A.crs) ∧
      clip_to_gdf tr A B = clip_to_gdf tr A (B.to_crs tr A.crs)) := by
  refine ⟨rfl, rfl, rfl, rfl, fun hne => ⟨?_, ?_⟩⟩
  · simp [subtract, GeoDataFrame.to_crs, hne]
  · simp [clip_to_gdf, GeoDataFrame.to_crs, hne]

/-- C10 witness: CRS preservation and target-reprojection direction at a
concrete pair of frames with differing CRS. -/
theorem c10_witness :
    (subtract idPrims.reproj { crs := "A", features := [] } { crs := "B", features := [] }).crs = "A" ∧
    subtract idPrims.reproj { crs := "A", features := [] } { crs := "B", features := [] }
      = subtract idPrims.reproj { crs := "A", features := [] }
          (GeoDataFrame.to_crs { crs := "B", features := [] } idPrims.reproj "A") := by
  have h := c10_crs_preserved idPrims.reproj
    { crs := "A", features := [] } { crs := "B", features := [] } 0
  exact ⟨h.1, (h.2.2.2.2 (by decide)).1⟩

/-- Concrete collections for the C2 counterexample: the water source
covers the only base feature, so subtract empties the layer and the
following merge creates a single row with empty geometry. -/
def c2Base : GeoDataFrame :=
  { crs := "EPSG:4326", features := [{ geometry := .generic [(0, 0)], attrs := [] }] }

def c2Water : GeoDataFrame :=
  { crs := "EPSG:4326", features := [{ geometry := .generic [(0, 0)], attrs := [] }] }

/-- C2 counterexample: a declared operation sequence (subtract, then
merge) whose merge output contains an empty geometry — merge performs no
empty-geometry filtering, so operation outputs do not always contain only
non-empty geometries. -/
theorem c2_counterexample :
    (process_layer idPrims c2Base
      [{ type := "subtract", target := .str "water" }, { type := "merge" }]
      [("water", c2Water)]).features
      = [{ geometry := SGeom.generic [], attrs := [] }] ∧
    SGeom.isEmpty (SGeom.generic []) = true := by decide

/-- C2 amended: the operations that do filter — subtract, clip (box),
clip_to_gdf, buffer, and clean (which ends in a buffer) — output only
non-empty geometries; merge, simplify and remove_holes filter nothing:
merge always emits exactly one row (whose geometry is the union, empty
when the input is — see the counterexample), and simplify and
remove_holes map the rows one-for-one. -/
theorem c2_filtering_ops_nonempty (tr : String → String → Cell → Cell)
    (bp : Rat → SGeom → SGeom) (sp : Rat → Bool → SGeom → SGeom)
    (A B : GeoDataFrame) (b : Bounds4) (d tol m : Rat) (pt : Bool) :
    (∀ f ∈ (subtract tr A B).features, f.geometry.isEmpty = false) ∧
    (∀ f ∈ (clip A b).features, f.geometry.isEmpty = false) ∧
    (∀ f ∈ (clip_to_gdf tr A B).features, f.geometry.isEmpty = false) ∧
    (∀ f ∈ (buffer bp A d).features, f.geometry.isEmpty = false) ∧
    (∀ f ∈ (clean_geometry bp A d).features, f.geometry.isEmpty = false) ∧
    (merge A).features.length = 1 ∧
    (simplify sp A tol pt).features.length = A.features.length ∧
    (remove_holes A m).features.length = A.features.length := by
  refine ⟨fun f hf => ?_, fun f hf => ?_, fun f hf => ?_, fun f hf => ?_,
    fun f hf => ?_, rfl, ?_, ?_⟩
  · simpa using (List.mem_filter.mp hf).2
  · simpa using (List.mem_filter.mp hf).2
  · simpa using (List.mem_filter.mp hf).2
  · simpa using (List.mem_filter.mp hf).2
  · simpa using (List.mem_filter.mp hf).2
  · simp [simplify]
  · simp [remove_holes]

/-- C2 amended witness: a concrete surviving subtract output feature is
non-empty, a concrete clean output feature is non-empty, and merge of the
concrete base emits exactly one row. -/
theorem c2_filtering_ops_witness :
    ({ geometry := SGeom.generic [(0, 0)], attrs := [] } : Feature).geometry.isEmpty
        = false ∧
      (merge c2Base).features.length = 1 := by
  have h := c2_filtering_ops_nonempty idPrims.reproj idPrims.bufPrim idPrims.simpPrim
    c2Base { crs := "EPSG:4326", features := [] } (0, 0, 0, 0) 0 0 0 true
  exact ⟨h.1 { geometry := SGeom.generic [(0, 0)], attrs := [] } (by decide), h.2.2.2.2.2.1⟩

/-- Concrete collections for the C3 counterexample: the target's two
small geometries sit at opposite corners, so their union misses the base
feature at (2, 2) while their bounding box contains it. -/
def c3Base : GeoDataFrame :=
  { crs := "E", features := [{ geometry := .generic [(2, 2)], attrs := [] }] }

def c3Target : GeoDataFrame :=
  { crs := "E", features := [{ geometry := .generic [(0, 0)], attrs := [] },
                             { geometry := .generic [(5, 5)], attrs := [] }] }

/-- C3 counterexample: the clip operation with a named target keeps a
base feature whose intersection with the union of the target's
geometries is empty, because the code clips to the target's bounding box
(total_bounds), not to the unioned geometry. -/
theorem c3_counterexample :
    (process_layer idPrims c3Base [{ type := "clip", target := .str "t" }]
      [("t", c3Target)]).features
      = [{ geometry := SGeom.generic [(2, 2)], attrs := [] }] ∧
    SGeom.isEmpty ((SGeom.generic [(2, 2)]).intersection
      (.generic c3Target.unionAllCells)) = true := by decide

/-- C3 amended: the clip operation with a named target (other than
"bounds") that resolves to a loaded source with coordinates clips every
base feature to the target's bounding box, and drops features whose
intersection with that box is empty. -/
theorem c3_clip_uses_total_bounds (prims : EnginePrims) (A T : GeoDataFrame)
    (sources : List (String × GeoDataFrame)) (tname : String) (b : Bounds4)
    (hb : tname ≠ "bounds") (hlk : sources.lookup tname = some T)
    (htb : T.total_bounds = some b) :
    process_layer prims A [{ type := "clip", target := .str tname }] sources
      = clip A b ∧
    ∀ f ∈ (clip A b).features,
      f.geometry.isEmpty = false ∧ ∀ c ∈ f.geometry.cells, boxContains b c = true := by
  constructor
  · show applyOp prims sources A { type := "clip", target := .str tname } = clip A b
    simp [applyOp, hb, hlk, htb]
  · intro f hf
    obtain ⟨hmem, hp⟩ := List.mem_filter.mp hf
    obtain ⟨a, _, rfl⟩ := List.mem_map.mp hmem
    refine ⟨by simpa using hp, fun c hc => ?_⟩
    exact (List.mem_filter.mp hc).2

/-- C3 amended witness: at the concrete counterexample inputs the clip
operation equals the box clip against the target's total bounds. -/
theorem c3_clip_witness :
    process_layer idPrims c3Base [{ type := "clip", target := .str "t" }]
      [("t", c3Target)] = clip c3Base (0, 0, 5, 5) :=
  (c3_clip_uses_total_bounds idPrims c3Base c3Target [("t", c3Target)] "t"
    (0, 0, 5, 5) (by decide) (by decide) (by decide)).1

/-- Concrete polygon for the C4 counterexample: exterior of five cells,
one interior ring of area 1 and one of area 3. -/
def c4Geom : SGeom :=
  .polygon [(0, 0), (1, 0), (2, 0), (3, 0), (4, 0)]
    [[(1, 0)], [(2, 0), (3, 0), (4, 0)]]

/-- C4 counterexample: with threshold 2, remove_holes keeps the interior
ring of area 1 (the claim says rings below the threshold are filled) and
removes the ring of area 3 (the claim says larger rings are preserved) —
the code's threshold semantics is the reverse of the claim's. -/
theorem c4_counterexample :
    remove_holes_from_geom 2 c4Geom
      = SGeom.polygon [(0, 0), (1, 0), (2, 0), (3, 0), (4, 0)] [[(1, 0)]] ∧
    ringArea [(1, 0)] < 2 ∧ 2 < ringArea [(2, 0), (3, 0), (4, 0)] := by decide

/-- C4 amended: on a polygon with a non-empty exterior, remove_holes with
a non-positive threshold rebuilds the polygon from only its exterior
ring; with a positive threshold it keeps exactly the interior rings whose
area is strictly below the threshold and removes every ring whose area
reaches it (fills large islands, preserves small ones). -/
theorem c4_remove_holes_semantics (e : List Cell) (hs : List (List Cell))
    (m : Rat) (hne : e ≠ []) :
    (m ≤ 0 → remove_holes_from_geom m (.polygon e hs) = .polygon e []) ∧
    (0 < m →
      remove_holes_from_geom m (.polygon e hs)
        = .polygon e (hs.filter (fun h => decide (ringArea h < m))) ∧
      (∀ h ∈ hs, ringArea h < m →
        h ∈ hs.filter (fun h2 => decide (ringArea h2 < m))) ∧
      (∀ h ∈ hs, m ≤ ringArea h →
        h ∉ hs.filter (fun h2 => decide (ringArea h2 < m)))) := by
  have hem : SGeom.isEmpty (.polygon e hs) = false := by
    simp [SGeom.isEmpty, hne]
  constructor
  · intro hm
    simp [remove_holes_from_geom, hem, removeHolesPoly, hm]
  · intro hm
    refine ⟨?_, fun h hh hlt => ?_, fun h hh hge hmem => ?_⟩
    · simp [remove_holes_from_geom, hem, removeHolesPoly, not_le.mpr hm]
    · exact List.mem_filter.mpr ⟨hh, by simp [hlt]⟩
    · have := (List.mem_filter.mp hmem).2
      simp only [decide_eq_true_eq] at this
      exact absurd this (not_lt.mpr hge)

/-- C4 amended witness: both branches at concrete inputs — threshold 0
strips the ring, threshold 2 keeps the ring of area 1. -/
theorem c4_remove_holes_witness :
    remove_holes_from_geom 0 (SGeom.polygon [(0, 0)] [[(1, 1)]])
      = SGeom.polygon [(0, 0)] [] ∧
    remove_holes_from_geom 2 (SGeom.polygon [(0, 0)] [[(1, 1)]])
      = SGeom.polygon [(0, 0)]
          (([[(1, 1)]] : List (List Cell)).filter (fun h2 => decide (ringArea h2 < 2))) :=
  ⟨(c4_remove_holes_semantics [(0, 0)] [[(1, 1)]] 0 (by decide)).1 le_rfl,
   ((c4_remove_holes_semantics [(0, 0)] [[(1, 1)]] 2 (by decide)).2 (by norm_num)).1⟩

/-- Concrete layer and recipe for the C8 counterexample: the output
bounds are the explicit string "source:water", whose extent box is the
single cell (0, 0); the composed layer holds a geometry far outside. -/
def c8Layers : List (String × GeoDataFrame) :=
  [("towns", { crs := "E", features := [{ geometry := .generic [(10, 10)], attrs := [] }] })]

def c8Recipe : Recipe :=
  { name := "m", sources := [("water", { uri := "u" })], layers := [],
    output := { bounds := .str "source:water" } }

def c8Sources : List (String × GeoDataFrame) :=
  [("water", { crs := "E", features := [{ geometry := .generic [(0, 0)], attrs := [] }] })]

/-- C8 counterexample: with bounds "source:<name>" — explicit per the
claim — the final _clip_to_bounds pass leaves every layer untouched, and
a layer geometry outside the named source's extent box survives it. -/
theorem c8_counterexample :
    clipToBounds (BoundsCfg.str "source:water") c8Layers = c8Layers ∧
    get_output_bounds c8Recipe c8Sources c8Layers = some (0, 0, 0, 0) ∧
    boxContains (0, 0, 0, 0) (10, 10) = false := by decide

/-- C8 amended: only a 4-number list bounds triggers the final pass, and
then every surviving feature is non-empty and lies inside the declared
box; any string bounds — "auto" and "source:<name>" alike — leaves every
layer unchanged. -/
theorem c8_final_clip_semantics (w s e n : Rat)
    (layers : List (String × GeoDataFrame)) :
    (∀ p ∈ clipToBounds (.floats [w, s, e, n]) layers, ∀ f ∈ p.2.features,
      f.geometry.isEmpty = false ∧
      ∀ c ∈ f.geometry.cells, boxContains (w, s, e, n) c = true) ∧
    (∀ str, clipToBounds (.str str) layers = layers) := by
  constructor
  · intro p hp f hf
    simp only [clipToBounds, reduceCtorEq, if_false, List.length_cons,
      List.length_nil, List.getD, if_true] at hp
    obtain ⟨⟨nm, g⟩, hmem, rfl⟩ := List.mem_map.mp hp
    simp only at hf
    obtain ⟨hmem2, hp2⟩ := List.mem_filter.mp hf
    obtain ⟨hmem3, _⟩ := List.mem_filter.mp hmem2
    obtain ⟨a, _, rfl⟩ := List.mem_map.mp hmem3
    refine ⟨by simpa using hp2, fun c hc => ?_⟩
    exact (List.mem_filter.mp hc).2
  · intro str
    by_cases h : str = "auto"
    · simp [clipToBounds, h]
    · simp [clipToBounds, h]

/-- Concrete in-box layer frame for the C8 amended witness. -/
def c8InBox : GeoDataFrame :=
  { crs := "E", features := [{ geometry := .generic [(0, 0)], attrs := [] }] }

/-- C8 amended witness: list bounds clip a concrete layer's feature into
the box; string bounds leave the concrete layer set unchanged. -/
theorem c8_final_clip_witness :
    ({ geometry := SGeom.generic [(0, 0)], attrs := [] } : Feature).geometry.isEmpty
        = false ∧
      boxContains ((0 : Rat), (0 : Rat), (1 : Rat), (1 : Rat)) (0, 0) = true ∧
    clipToBounds (.str "source:water") c8Layers = c8Layers := by
  have h := c8_final_clip_semantics 0 0 1 1 [("a", c8InBox)]
  have h1 := h.1 ("a", c8InBox) (by decide)
    { geometry := SGeom.generic [(0, 0)], attrs := [] } (by decide)
  have h2 := (c8_final_clip_semantics 0 0 1 1 c8Layers).2 "source:water"
  exact ⟨h1.1, h1.2 (0, 0) (by decide), h2⟩

/-- C1: a layer source reference missing from the recipe's sources map
puts the error string naming both the layer and the missing source into
the validation list, the list length equals the number of undefined
references (exactly one error per offence), and the build aborts with
that list — its outcome is the validation failure whatever source data or
engine primitives would have been supplied, so nothing is loaded,
processed or rendered. -/
theorem c1_undefined_source_aborts (r : Recipe) (L : LayerConfig) (s : String)
    (hL : L ∈ r.layers) (hs : s ∈ L.source.asList)
    (hmiss : (sourceNames r).contains s = false) :
    refErr L.name s ∈ validate_references r ∧
    (validate_references r).length = offendingCount r ∧
    (∀ prims load, cliBuild prims r load = .validationFailure (validate_references r)) ∧
    (∀ prims prims2 load load2, cliBuild prims r load = cliBuild prims2 r load2) := by
  have hmiss2 : s ∉ sourceNames r := by simpa using hmiss
  have hmem : refErr L.name s ∈ validate_references r := by
    refine List.mem_flatMap.mpr ⟨L, hL, List.mem_append_left _ ?_⟩
    exact List.mem_map.mpr ⟨s, List.mem_filter.mpr ⟨hs, by simp [hmiss2]⟩, rfl⟩
  have hlen : (validate_references r).length = offendingCount r := by
    rw [validate_references, offendingCount, List.length_flatMap]
    congr 1
    apply List.map_congr_left
    intro layer _
    simp only [Function.comp_apply]
    rw [List.length_append, List.length_map, List.length_flatMap]
    congr 1
    apply congrArg List.sum
    apply List.map_congr_left
    intro op _
    simp only [Function.comp_apply]
    by_cases h : op.target.isTruthy
    · simp [h]
    · simp [h]
  have habort : ∀ prims load,
      cliBuild prims r load = .validationFailure (validate_references r) := by
    intro prims load
    rcases hv : validate_references r with _ | ⟨e, es⟩
    · exact absurd hv (List.ne_nil_of_mem hmem)
    · simp [cliBuild, hv]
  exact ⟨hmem, hlen, habort, fun prims prims2 load load2 => by
    rw [habort prims load, habort prims2 load2]⟩

/-- The recipe of the C1 witness: one layer whose single source reference
names no defined source (mirrors tests/test_recipe.py
test_validate_source_references). -/
def c1Recipe : Recipe :=
  { name := "bad_map"
    sources := [("towns", { uri := "census:tiger/2023/vt/cousub" })]
    layers := [{ name := "towns", source := .str "undefined_source", order := 1 }]
    output := {} }

/-- C1 witness: at the concrete recipe the single validation error names
the layer and the missing source, and the build aborts with it under
concrete load data. -/
theorem c1_witness :
    refErr "towns" "undefined_source" ∈ validate_references c1Recipe ∧
    (validate_references c1Recipe).length = 1 ∧
    cliBuild idPrims c1Recipe (fun _ => { crs := "", features := [] })
      = .validationFailure (validate_references c1Recipe) := by
  have h := c1_undefined_source_aborts c1Recipe
    { name := "towns", source := .str "undefined_source", order := 1 }
    "undefined_source" (by decide) (by decide) (by decide)
  exact ⟨h.1, h.2.1.trans (by decide),
    h.2.2.1 idPrims (fun _ => { crs := "", features := [] })⟩

/-- C5: vary_color equals the spec's reference algorithm input-for-input
(hence identical inputs give byte-identical output), and for a
nonnegative variation the saturation adjustment is bounded by
variation / 2 and the value adjustment by variation. -/
theorem c5_vary_color_reference :
    (∀ base_hex index variation,
      vary_color base_hex index variation = spec_vary_color base_hex index variation) ∧
    (∀ index variation, (0 : Rat) ≤ variation →
      |sAdjust index variation| ≤ variation / 2 ∧
      |vAdjust index variation| ≤ variation) := by
  constructor
  · intro bh i var
    have h1 : sAdjust i var
        = ((((i * 7919) % 100 : Nat) : Rat) / 100 - 1/2) * var / 2 := by
      rw [sAdjust, colorOffset]; ring
    have h2 : vAdjust i var
        = ((((i * 7919) % 100 : Nat) : Rat) / 100 - 1/2) * var := by
      rw [vAdjust, colorOffset]
    simp only [vary_color, spec_vary_color, clampQ, h1, h2]
  · intro i var hvar
    have h99 : ((i * 7919) % 100 : Nat) ≤ 99 :=
      Nat.le_of_lt_succ (Nat.mod_lt _ (by norm_num))
    have h99q : (((i * 7919) % 100 : Nat) : Rat) ≤ 99 := by exact_mod_cast h99
    have h0 : (0 : Rat) ≤ colorOffset i := by rw [colorOffset]; positivity
    have h1 : colorOffset i ≤ 99/100 := by rw [colorOffset]; linarith
    have habs : |colorOffset i - 1/2| ≤ 1/2 := by
      rw [abs_le]; constructor <;> linarith
    constructor
    · have hs : |sAdjust i var| = |colorOffset i - 1/2| * var * (1/2) := by
        rw [sAdjust, abs_mul, abs_mul, abs_of_nonneg hvar]
        norm_num
      rw [hs]
      nlinarith [abs_nonneg (colorOffset i - 1/2)]
    · have hv : |vAdjust i var| = |colorOffset i - 1/2| * var := by
        rw [vAdjust, abs_mul, abs_of_nonneg hvar]
      rw [hv]
      nlinarith [abs_nonneg (colorOffset i - 1/2)]

/-- C5 witness: reference equality and adjustment bounds at a concrete
base color, index and variation. -/
theorem c5_witness :
    vary_color "#81c784" 3 (3/20) = spec_vary_color "#81c784" 3 (3/20) ∧
    (0 : Rat) ≤ 3/20 ∧
    |sAdjust 3 (3/20)| ≤ (3/20) / 2 ∧ |vAdjust 3 (3/20)| ≤ 3/20 :=
  ⟨c5_vary_color_reference.1 "#81c784" 3 (3/20), by norm_num,
   (c5_vary_color_reference.2 3 (3/20) (by norm_num)).1,
   (c5_vary_color_reference.2 3 (3/20) (by norm_num)).2⟩

/-- C6: the transform applies the latitude correction to the effective
width before the limiting-axis min and reapplies it to the x-scale only:
scale_x is the corrected base scale times the factor and scale_y is the
base scale; bounds centered on the equator give scale_x = scale_y, and
bounds centered at 60 degrees give scale_x equal to half the base
scale. -/
theorem c6_transform_latitude_correction (e : SVGExporter)
    (minx miny maxx maxy : ℝ) (hgw : 0 < maxx - minx) (hgh : 0 < maxy - miny)
    (hc : 0 < lat_correction_of miny maxy) :
    (calculate_transform e (minx, miny, maxx, maxy)).1
      = min ((e.width_px - 2 * e.margin_px) / ((maxx - minx) * lat_correction_of miny maxy))
            ((e.height_px - 2 * e.margin_px) / (maxy - miny))
          * lat_correction_of miny maxy ∧
    (calculate_transform e (minx, miny, maxx, maxy)).2.1
      = min ((e.width_px - 2 * e.margin_px) / ((maxx - minx) * lat_correction_of miny maxy))
            ((e.height_px - 2 * e.margin_px) / (maxy - miny)) ∧
    (miny + maxy = 0 →
      (calculate_transform e (minx, miny, maxx, maxy)).1
        = (calculate_transform e (minx, miny, maxx, maxy)).2.1) ∧
    ((miny + maxy) / 2 = 60 →
      (calculate_transform e (minx, miny, maxx, maxy)).1
        = min ((e.width_px - 2 * e.margin_px) / ((maxx - minx) * lat_correction_of miny maxy))
              ((e.height_px - 2 * e.margin_px) / (maxy - miny)) / 2) := by
  have hb1 : (maxx - minx) * lat_correction_of miny maxy > 0 := mul_pos hgw hc
  have hx : (calculate_transform e (minx, miny, maxx, maxy)).1
      = min ((e.width_px - 2 * e.margin_px) / ((maxx - minx) * lat_correction_of miny maxy))
            ((e.height_px - 2 * e.margin_px) / (maxy - miny))
          * lat_correction_of miny maxy := by
    simp only [calculate_transform]
    rw [if_pos hb1, if_pos hgh]
  have hy : (calculate_transform e (minx, miny, maxx, maxy)).2.1
      = min ((e.width_px - 2 * e.margin_px) / ((maxx - minx) * lat_correction_of miny maxy))
            ((e.height_px - 2 * e.margin_px) / (maxy - miny)) := by
    simp only [calculate_transform]
    rw [if_pos hb1, if_pos hgh]
  refine ⟨hx, hy, fun h0 => ?_, fun h60 => ?_⟩
  · have hone : lat_correction_of miny maxy = 1 := by
      rw [lat_correction_of, h0]
      norm_num
    rw [hx, hy, hone, mul_one]
  · have hhalf : lat_correction_of miny maxy = 1/2 := by
      rw [lat_correction_of, h60]
      have h : (60 : ℝ) * Real.pi / 180 = Real.pi / 3 := by ring
      rw [h, Real.cos_pi_div_three]
    rw [hx, hhalf]
    ring

/-- Concrete page state for the C6 witness (pixel units, so the px
fields equal the inputs). -/
noncomputable def c6Exporter : SVGExporter := SVGExporter.init 100 200 "px" 10 96

/-- C6 witness: a 60-degree-centered bounds box at a concrete exporter —
the hypotheses hold and scale_x is half the base scale. -/
theorem c6_witness :
    (0 : ℝ) < 10 - 0 ∧ (0 : ℝ) < 70 - 50 ∧ 0 < lat_correction_of 50 70 ∧
    (calculate_transform c6Exporter (0, 50, 10, 70)).1
      = min ((c6Exporter.width_px - 2 * c6Exporter.margin_px)
              / ((10 - 0) * lat_correction_of 50 70))
            ((c6Exporter.height_px - 2 * c6Exporter.margin_px) / (70 - 50)) / 2 := by
  have hc : (0 : ℝ) < lat_correction_of 50 70 := by
    rw [lat_correction_of]
    have h : (((50 : ℝ) + 70) / 2) * Real.pi / 180 = Real.pi / 3 := by ring
    rw [h, Real.cos_pi_div_three]
    norm_num
  have h := c6_transform_latitude_correction c6Exporter 0 50 10 70
    (by norm_num) (by norm_num) hc
  exact ⟨by norm_num, by norm_num, hc, h.2.2.2 (by norm_num)⟩

end Strata
